import Mathlib

/-!
Shallow embedding of the FenceWise backend (src/backend/server.py).

The document store is modelled as in-memory lists of records; MongoDB
queries become list filters, `sort(..., -1) / sort(..., 1)` becomes
`List.insertionSort` with the corresponding order, and `to_list(1000)`
becomes `List.take 1000`.  Machine-level concerns that the claims do not
touch (bcrypt internals, JWT signing, float representation) are modelled
by executable stand-ins noted at each definition.  Python `round(x, 2)`
is modelled over exact rationals with round-half-to-even, which agrees
with CPython on every value exercised below.
-/

namespace FenceWise

/-- HTTP error outcomes raised by the handlers.  `conflict` is the 400
"Email already registered" response; `internalError` models an uncaught
Python exception surfacing as HTTP 500. -/
inductive ApiError where
  | unauthenticated
  | forbidden
  | notFound
  | conflict
  | internalError
  deriving DecidableEq, Repr

/-- A character accepted by `bson.ObjectId`'s 24-hex-digit string form. -/
def isHexChar (c : Char) : Bool :=
  c.isDigit || (('a' ≤ c) && (c ≤ 'f')) || (('A' ≤ c) && (c ≤ 'F'))

/-- Model of `bson.ObjectId.is_valid` on strings: exactly 24 hex digits.
`ObjectId(s)` on any other string raises `InvalidId`, which no handler
catches. -/
def isValidObjectId (s : String) : Bool :=
  s.length == 24 && s.data.all isHexChar

/-- Model of `hash_password` (`pwd_context.hash`): bcrypt itself is out of
scope, so hashing is modelled by an injective tagging function. -/
def hash_password (password : String) : String := "bcrypt-tag-" ++ password

/-- Model of `verify_password` (`pwd_context.verify`). -/
def verify_password (plain_password hashed_password : String) : Bool :=
  hash_password plain_password == hashed_password

def ACCESS_TOKEN_EXPIRE_MINUTES : Nat := 60 * 24 * 7

/-- Decoded JWT payload: subject user id and expiry instant.  Signature
checking is out of scope; only honestly issued tokens are modelled. -/
structure Token where
  sub : String
  exp : Nat
  deriving DecidableEq, Repr

/-- Model of `create_access_token(data={"sub": user_id})`: expiry is
`ACCESS_TOKEN_EXPIRE_MINUTES` past the issuing instant. -/
def create_access_token (sub : String) (now : Nat) : Token :=
  { sub := sub, exp := now + ACCESS_TOKEN_EXPIRE_MINUTES }

/-- A stored user document (`db.users`). -/
structure User where
  id : String
  name : String
  email : String
  password : String
  role : String
  active : Bool
  created_at : Nat
  deriving DecidableEq, Repr

/-- A stored job document (`db.jobs`). -/
structure Job where
  id : String
  client_name : String
  address : String
  contact : String
  job_type : String
  notes : String
  status : String
  created_by : String
  created_by_name : String
  created_at : Nat
  completed_at : Option Nat
  signature_url : Option String
  deriving DecidableEq, Repr

/-- A stored timesheet document (`db.timesheets`). -/
structure Timesheet where
  id : String
  user_id : String
  user_name : String
  date : String
  start_time : String
  finish_time : String
  break_time : String
  notes : String
  total_hours : ℚ
  job_id : Option String
  approved : Bool
  created_at : Nat
  deriving DecidableEq, Repr

/-- A stored message document (`db.messages`). -/
structure Message where
  id : String
  from_id : String
  from_name : String
  «to» : String
  message : String
  image_url : Option String
  timestamp : Nat
  deriving DecidableEq, Repr

/-- The document store. -/
structure DB where
  users : List User := []
  jobs : List Job := []
  timesheets : List Timesheet := []
  messages : List Message := []
  deriving DecidableEq, Repr

/-- Model of `get_current_user`: decode the token (an expired token makes
`jwt.decode` raise `PyJWTError`, hence 401), then load the user by id;
missing user is 401.  The `active` flag is not consulted. -/
def get_current_user (db : DB) (tok : Token) (now : Nat) : Except ApiError User :=
  if tok.exp < now then .error .unauthenticated
  else
    match db.users.find? (fun u => u.id == tok.sub) with
    | none => .error .unauthenticated
    | some u => .ok u

/-! ## Hours Calculator -/

/-- Python `str.split(sep)` for a single-character separator, over the
character list of the string. -/
def splitOnChar (sep : Char) : List Char → List (List Char)
  | [] => [[]]
  | c :: cs =>
    if c = sep then [] :: splitOnChar sep cs
    else
      match splitOnChar sep cs with
      | [] => [[c]]
      | g :: gs => (c :: g) :: gs

/-- Value of a nonempty list of decimal digits. -/
def digitsVal (cs : List Char) : Nat :=
  cs.foldl (fun a c => a * 10 + (c.toNat - 48)) 0

/-- Decimal digit run accepted by Python `int`. -/
def pyIntDigits (cs : List Char) : Option Nat :=
  if cs.isEmpty then none
  else if cs.all Char.isDigit then some (digitsVal cs) else none

/-- Model of Python `int(s)` on the relevant inputs: an optional sign
followed by decimal digits; anything else raises `ValueError` (`none`).
Pythonic leniencies never produced by clock strings (surrounding
whitespace, digit-group underscores) are not modelled. -/
def pyInt (cs : List Char) : Option Int :=
  match cs with
  | '-' :: rest => (pyIntDigits rest).map (fun n => -(n : Int))
  | '+' :: rest => (pyIntDigits rest).map (fun n => (n : Int))
  | _ => (pyIntDigits cs).map (fun n => (n : Int))

/-- The parse step of `calculate_hours` for one clock string:
`h, m = map(int, s.split(':'))` followed by `h * 60 + m`.  Any failure
(wrong number of fields, non-numeric field) is an exception caught by the
bare `except` (`none`). -/
def parseClock (s : String) : Option Int :=
  match splitOnChar ':' s.data with
  | [hs, ms] => do
      let h ← pyInt hs
      let m ← pyInt ms
      pure (h * 60 + m)
  | _ => none

/-- Floor of a rational, computed on its reduced fraction. -/
def ratFloor (q : ℚ) : ℤ := Int.fdiv q.num q.den

/-- Round-half-to-even to an integer, as CPython `round` does. -/
def roundHalfEven (q : ℚ) : ℤ :=
  let f := ratFloor q
  let r := q - (f : ℚ)
  if r < 1 / 2 then f
  else if 1 / 2 < r then f + 1
  else if f % 2 = 0 then f else f + 1

/-- Model of Python `round(q, 2)` over exact rationals. -/
def pyRound2 (q : ℚ) : ℚ := ((roundHalfEven (q * 100)) : ℚ) / 100

/-- Model of `calculate_hours`: parse the three `HH:MM` strings, return
`round((finish - start - break) / 60, 2)`; on any parse failure return
`0.0`. -/
def calculate_hours (start finish break_time : String) : ℚ :=
  match parseClock start, parseClock finish, parseClock break_time with
  | some start_minutes, some finish_minutes, some break_minutes =>
      pyRound2 (((finish_minutes - start_minutes - break_minutes : ℤ) : ℚ) / 60)
  | _, _, _ => 0

/-! ## Auth endpoints -/

/-- The `UserRegister` request model: pydantic applies the default
`"worker"` when the `role` field is absent from the payload. -/
structure UserRegister where
  name : String
  email : String
  password : String
  role : String := "worker"

/-- Model of `register`: reject a taken email with 400, otherwise insert
the user (role stored verbatim from the payload, `active` true) and
return a token for it.  `newId` is the store-assigned id. -/
def register (db : DB) (d : UserRegister) (now : Nat) (newId : String) :
    Except ApiError (Token × User × DB) :=
  match db.users.find? (fun u => u.email == d.email) with
  | some _ => .error .conflict
  | none =>
    let user : User :=
      { id := newId, name := d.name, email := d.email,
        password := hash_password d.password, role := d.role,
        active := true, created_at := now }
    .ok (create_access_token newId now, user, { db with users := db.users ++ [user] })

/-- Model of `login`: unknown email or wrong password is 401; a correct
password for an inactive account is 403; otherwise the user logs in. -/
def login (db : DB) (email password : String) : Except ApiError User :=
  match db.users.find? (fun u => u.email == email) with
  | none => .error .unauthenticated
  | some user =>
    if ¬ verify_password password user.password then .error .unauthenticated
    else if ¬ user.active then .error .forbidden
    else .ok user

/-- The inline role check `role in ["admin", "supervisor"]`. -/
def isElevated (u : User) : Bool := u.role == "admin" || u.role == "supervisor"

/-! ## Job endpoints -/

/-- The `JobUpdate` request model: every field optional. -/
structure JobUpdate where
  client_name : Option String := none
  address : Option String := none
  contact : Option String := none
  job_type : Option String := none
  notes : Option String := none
  status : Option String := none
  signature_url : Option String := none
  deriving DecidableEq, Repr

/-- Descending `created_at`, the `sort("created_at", -1)` order. -/
def jobDescRel (a b : Job) : Prop := b.created_at ≤ a.created_at

instance : DecidableRel jobDescRel := fun a b => Nat.decLe b.created_at a.created_at

instance : IsTotal Job jobDescRel := ⟨fun a b => Nat.le_total b.created_at a.created_at⟩

instance : IsTrans Job jobDescRel := ⟨fun _ _ _ h1 h2 => le_trans h2 h1⟩

/-- The filter of `get_jobs`: elevated roles query everything, workers
query only jobs they created. -/
def jobsQuery (db : DB) (current_user : User) : List Job :=
  if isElevated current_user then db.jobs
  else db.jobs.filter (fun j => j.created_by == current_user.id)

/-- Model of `get_jobs`: filter by role, sort descending by `created_at`,
cap at 1000. -/
def get_jobs (db : DB) (current_user : User) : List Job :=
  (List.insertionSort jobDescRel (jobsQuery db current_user)).take 1000

/-- Model of `get_job`: `ObjectId(job_id)` raises on a malformed id (an
uncaught exception, HTTP 500); otherwise look the job up, 404 when
absent.  No ownership check. -/
def get_job (db : DB) (_current_user : User) (job_id : String) : Except ApiError Job :=
  if ¬ isValidObjectId job_id then .error .internalError
  else
    match db.jobs.find? (fun j => j.id == job_id) with
    | none => .error .notFound
    | some j => .ok j

/-- The `$set` document of `update_job` applied to the stored job: only
fields present (not `None`) in the payload are written, and
`completed_at` is stamped when the payload sets `status` to
`"completed"` while the stored job has no completion time yet. -/
def applyJobUpdate (job : Job) (p : JobUpdate) (now : Nat) : Job :=
  let j1 : Job :=
    { job with
      client_name := p.client_name.getD job.client_name,
      address := p.address.getD job.address,
      contact := p.contact.getD job.contact,
      job_type := p.job_type.getD job.job_type,
      notes := p.notes.getD job.notes,
      status := p.status.getD job.status,
      signature_url := match p.signature_url with
        | some s => some s
        | none => job.signature_url }
  if p.status == some "completed" && job.completed_at == none then
    { j1 with completed_at := some now }
  else j1

/-- `update_one` on the first document matching the id. -/
def replaceFirstJob : List Job → String → Job → List Job
  | [], _, _ => []
  | j :: js, i, nj => if j.id == i then nj :: js else j :: replaceFirstJob js i nj

/-- The `$set` document built from the payload is nonempty iff some payload
field is present; the `completed_at` stamp can only join a `$set` that
already contains `status`, so it never makes an otherwise-empty `$set`
nonempty. -/
def hasSetFields (p : JobUpdate) : Bool :=
  p.client_name.isSome || p.address.isSome || p.contact.isSome ||
  p.job_type.isSome || p.notes.isSome || p.status.isSome || p.signature_url.isSome

/-- Model of `update_job`: malformed id raises (500); unknown id is 404; a
caller who is neither elevated nor the creator gets 403; a payload with
every field absent reaches `update_one` with an empty `$set` document,
which MongoDB rejects ("'$set' is empty") — an uncaught exception
surfacing as HTTP 500; otherwise the partial update is applied and the
updated job returned. -/
def update_job (db : DB) (current_user : User) (job_id : String) (p : JobUpdate)
    (now : Nat) : Except ApiError (Job × DB) :=
  if ¬ isValidObjectId job_id then .error .internalError
  else
    match db.jobs.find? (fun j => j.id == job_id) with
    | none => .error .notFound
    | some job =>
      if isElevated current_user = false ∧ job.created_by ≠ current_user.id then
        .error .forbidden
      else if ¬ hasSetFields p then .error .internalError
      else
        let updated := applyJobUpdate job p now
        .ok (updated, { db with jobs := replaceFirstJob db.jobs job_id updated })

/-! ## Timesheet endpoints -/

/-- The `TimesheetCreate` request model. -/
structure TimesheetCreate where
  date : String
  start_time : String
  finish_time : String
  break_time : String
  notes : String := ""
  job_id : Option String := none

/-- Model of `create_timesheet`: compute `total_hours` with the Hours
Calculator (no validation of the result), attribute the timesheet to the
caller, `approved` false. -/
def create_timesheet (db : DB) (current_user : User) (d : TimesheetCreate)
    (now : Nat) (newId : String) : Timesheet × DB :=
  let total_hours := calculate_hours d.start_time d.finish_time d.break_time
  let ts : Timesheet :=
    { id := newId, user_id := current_user.id, user_name := current_user.name,
      date := d.date, start_time := d.start_time, finish_time := d.finish_time,
      break_time := d.break_time, notes := d.notes, total_hours := total_hours,
      job_id := d.job_id, approved := false, created_at := now }
  (ts, { db with timesheets := db.timesheets ++ [ts] })

/-- Descending `date`, the `sort("date", -1)` order on date strings. -/
def tsDescRel (a b : Timesheet) : Prop := b.date ≤ a.date

instance : DecidableRel tsDescRel := fun a b => inferInstanceAs (Decidable (b.date ≤ a.date))

instance : IsTotal Timesheet tsDescRel := ⟨fun a b => le_total b.date a.date⟩

instance : IsTrans Timesheet tsDescRel := ⟨fun _ _ _ h1 h2 => le_trans h2 h1⟩

/-- The filter of `get_timesheets`: elevated roles query everything,
workers query only their own. -/
def tsQuery (db : DB) (current_user : User) : List Timesheet :=
  if isElevated current_user then db.timesheets
  else db.timesheets.filter (fun t => t.user_id == current_user.id)

/-- Model of `get_timesheets`: filter by role, sort descending by `date`,
cap at 1000. -/
def get_timesheets (db : DB) (current_user : User) : List Timesheet :=
  (List.insertionSort tsDescRel (tsQuery db current_user)).take 1000

/-- `update_one({_id}, {$set: {approved: true}})`: returns the new list,
the `matched_count` and the `modified_count`.  MongoDB counts a document
as modified only when the `$set` actually changed it, so a timesheet
whose `approved` flag is already true matches without being modified. -/
def setApprovedFirst : List Timesheet → String → List Timesheet × Nat × Nat
  | [], _ => ([], 0, 0)
  | t :: ts, tid =>
    if t.id == tid then
      if t.approved then (t :: ts, 1, 0)
      else ({ t with approved := true } :: ts, 1, 1)
    else
      let r := setApprovedFirst ts tid
      (t :: r.1, r.2.1, r.2.2)

/-- Model of `approve_timesheet`: non-elevated callers get 403; a
malformed id raises (500); then the handler runs the `$set` and treats
`modified_count == 0` as 404. -/
def approve_timesheet (db : DB) (current_user : User) (timesheet_id : String) :
    Except ApiError DB :=
  if ¬ (isElevated current_user = true) then .error .forbidden
  else if ¬ isValidObjectId timesheet_id then .error .internalError
  else
    let r := setApprovedFirst db.timesheets timesheet_id
    if r.2.2 == 0 then .error .notFound
    else .ok { db with timesheets := r.1 }

/-! ## Message endpoints -/

/-- Ascending `timestamp`, the `sort("timestamp", 1)` order. -/
def msgAscRel (a b : Message) : Prop := a.timestamp ≤ b.timestamp

instance : DecidableRel msgAscRel := fun a b => Nat.decLe a.timestamp b.timestamp

instance : IsTotal Message msgAscRel := ⟨fun a b => Nat.le_total a.timestamp b.timestamp⟩

instance : IsTrans Message msgAscRel := ⟨fun _ _ _ h1 h2 => le_trans h1 h2⟩

/-- The filter of `get_messages`: the `"team"` channel selects broadcast
messages; any other channel selects the two directions between the
caller and that channel id. -/
def messagesQuery (db : DB) (current_user : User) (channel : String) : List Message :=
  if channel == "team" then db.messages.filter (fun m => m.«to» == "team")
  else
    db.messages.filter (fun m =>
      (m.from_id == current_user.id && m.«to» == channel) ||
      (m.from_id == channel && m.«to» == current_user.id))

/-- Model of `get_messages`: filter by channel, sort ascending by
`timestamp`, cap at 1000. -/
def get_messages (db : DB) (current_user : User) (channel : String) : List Message :=
  (List.insertionSort msgAscRel (messagesQuery db current_user channel)).take 1000


/-- Equality of handler outcomes is decidable, so concrete runs of the
handlers can be checked by evaluation. -/
instance {ε α : Type} [DecidableEq ε] [DecidableEq α] : DecidableEq (Except ε α) := fun a b =>
  match a, b with
  | .error e, .error f => decidable_of_iff (e = f) (by simp)
  | .error _, .ok _ => isFalse (fun h => by cases h)
  | .ok _, .error _ => isFalse (fun h => by cases h)
  | .ok x, .ok y => decidable_of_iff (x = y) (by simp)

/-! ## Concrete fixtures used by witnesses and counterexamples -/

set_option maxRecDepth 8000

def adminU : User :=
  { id := "aaaaaaaaaaaaaaaaaaaaaaaa", name := "Alice", email := "alice@fencewise.test",
    password := hash_password "adminpw", role := "admin", active := true, created_at := 0 }

def workerU : User :=
  { id := "bbbbbbbbbbbbbbbbbbbbbbbb", name := "Wade", email := "wade@fencewise.test",
    password := hash_password "wadepw", role := "worker", active := true, created_at := 1 }

def otherWorkerU : User :=
  { id := "cccccccccccccccccccccccc", name := "Omar", email := "omar@fencewise.test",
    password := hash_password "omarpw", role := "worker", active := true, created_at := 2 }

def suspendedU : User :=
  { id := "dddddddddddddddddddddddd", name := "Sue", email := "sue@fencewise.test",
    password := hash_password "suepw", role := "worker", active := false, created_at := 3 }

def jobPending : Job :=
  { id := "111111111111111111111111", client_name := "Acme", address := "1 Fence Rd",
    contact := "555-0001", job_type := "Standard", notes := "", status := "pending",
    created_by := workerU.id, created_by_name := "Wade", created_at := 10,
    completed_at := none, signature_url := none }

def jobOther : Job :=
  { id := "555555555555555555555555", client_name := "Bravo", address := "2 Gate St",
    contact := "555-0002", job_type := "Corner", notes := "", status := "pending",
    created_by := otherWorkerU.id, created_by_name := "Omar", created_at := 11,
    completed_at := none, signature_url := none }

def tsPending : Timesheet :=
  { id := "222222222222222222222222", user_id := workerU.id, user_name := "Wade",
    date := "2025-01-15", start_time := "08:00", finish_time := "17:00",
    break_time := "01:00", notes := "", total_hours := 8, job_id := none,
    approved := false, created_at := 20 }

def msgTeam : Message :=
  { id := "666666666666666666666666", from_id := workerU.id, from_name := "Wade",
    «to» := "team", message := "standup at 8", image_url := none, timestamp := 30 }

def msgDirect : Message :=
  { id := "777777777777777777777777", from_id := workerU.id, from_name := "Wade",
    «to» := otherWorkerU.id, message := "got the panels", image_url := none, timestamp := 31 }

def dbC1 : DB := { users := [adminU, workerU], timesheets := [tsPending] }

def dbC1' : DB := { users := [adminU, workerU], timesheets := [{ tsPending with approved := true }] }

def dbC2 : DB := { users := [adminU], jobs := [jobPending] }

def dbC3 : DB := { users := [workerU], jobs := [jobPending] }

def completeUpd : JobUpdate := { status := some "completed" }

def notesUpd : JobUpdate := { notes := some "gate checked" }

def jobDone : Job := { jobPending with status := "completed", completed_at := some 50 }

def dbC3' : DB := { users := [workerU], jobs := [jobDone] }

def dbC4 : DB := { users := [suspendedU] }

def dbLists : DB :=
  { users := [adminU, workerU, otherWorkerU], jobs := [jobPending, jobOther],
    timesheets := [tsPending], messages := [msgTeam, msgDirect] }

def tsNegCreate : TimesheetCreate :=
  { date := "2025-01-16", start_time := "17:00", finish_time := "08:00", break_time := "00:00" }

def dbC10 : DB := { users := [workerU] }

def emptyDB : DB := {}

def eveRegister : UserRegister :=
  { name := "Eve", email := "eve@fencewise.test", password := "pw", role := "admin" }

/-! ## Claim theorems -/

/-- Claim C1 (code bug in `approve_timesheet`): an elevated caller approving an
existing unapproved timesheet succeeds and sets the flag, and an unknown id
fails with NotFound — but approving the already-approved timesheet again also
fails with NotFound, because the handler treats `modified_count == 0` as
"not found" while MongoDB also reports `modified_count = 0` for a matched
document that the `$set` left unchanged.  The spec's idempotency claim is the
evident intent (the 404 detail string "Timesheet not found" is emitted for a
timesheet that exists); the code's use of `modified_count` instead of
`matched_count` is the slip. -/
theorem approve_twice_returns_notFound :
    approve_timesheet dbC1 adminU tsPending.id = .ok dbC1' ∧
    approve_timesheet dbC1' adminU tsPending.id = .error .notFound ∧
    approve_timesheet dbC1 adminU "999999999999999999999999" = .error .notFound := by
  refine ⟨?_, ?_, ?_⟩ <;> with_unfolding_all decide

/-- Claim C2 counterexample: `get_job` on the malformed id "abc" does not
return NotFound — the `ObjectId` conversion raises and the request fails
with an internal server error. -/
theorem get_job_malformed_id_gives_500 :
    get_job dbC2 adminU "abc" = .error .internalError ∧
    get_job dbC2 adminU "abc" ≠ .error .notFound := by
  refine ⟨by decide, by decide⟩

/-- Claim C2 (amended): a malformed (unparseable) path id is not treated as
NotFound; the `ObjectId` constructor raises and the failure surfaces as an
internal server error (500) on `get_job` and `update_job` alike.  NotFound is
returned only for a well-formed id that matches no job. -/
theorem malformed_id_surfaces_internal_error (db : DB) (u : User) (jid : String)
    (p : JobUpdate) (now : Nat) :
    (isValidObjectId jid = false →
      get_job db u jid = .error .internalError ∧
      update_job db u jid p now = .error .internalError) ∧
    (isValidObjectId jid = true → db.jobs.find? (fun j => j.id == jid) = none →
      get_job db u jid = .error .notFound ∧
      update_job db u jid p now = .error .notFound) := by
  constructor
  · intro h
    constructor
    · simp [get_job, h]
    · simp [update_job, h]
  · intro h hf
    constructor
    · simp [get_job, h, hf]
    · simp [update_job, h, hf]

/-- Witness for the amended Claim C2 at concrete inputs. -/
theorem malformed_id_witness :
    get_job dbC2 adminU "zzz" = .error .internalError ∧
    get_job dbC2 adminU "999999999999999999999999" = .error .notFound := by
  constructor
  · exact ((malformed_id_surfaces_internal_error dbC2 adminU "zzz" {} 0).1 (by decide)).1
  · exact ((malformed_id_surfaces_internal_error dbC2 adminU "999999999999999999999999" {} 0).2
      (by decide) (by decide)).1

/-- Claim C3: on `update_job`, the first update that sets `status` to
"completed" while the stored job has no completion timestamp stamps
`completed_at` with the current time; once `completed_at` is set, every
later successful update (including ones setting "completed" again) leaves
it unchanged, and no update can clear it (no payload field writes it). -/
theorem completed_at_set_exactly_once (db : DB) (u : User) (jid : String)
    (p : JobUpdate) (now : Nat) (j j' : Job) (db' : DB)
    (hfind : db.jobs.find? (fun x => x.id == jid) = some j)
    (hok : update_job db u jid p now = .ok (j', db')) :
    (j.completed_at = none → p.status = some "completed" →
      j'.completed_at = some now) ∧
    (∀ t, j.completed_at = some t → j'.completed_at = some t) := by
  simp only [update_job, hfind] at hok
  split at hok
  · simp at hok
  · split at hok
    · simp at hok
    · split at hok
      · simp at hok
      · simp only [Except.ok.injEq, Prod.mk.injEq] at hok
        obtain ⟨h1, h2⟩ := hok
        subst h1
        constructor
        · intro hc hs
          simp [applyJobUpdate, hc, hs]
        · intro t ht
          simp [applyJobUpdate, ht]

/-- Witness for Claim C3: a worker completing their own pending job at time
50 gets `completed_at = some 50`. -/
theorem completed_at_witness : jobDone.completed_at = some 50 :=
  (completed_at_set_exactly_once dbC3 workerU jobPending.id completeUpd 50
    jobPending jobDone dbC3' (by decide) (by decide)).1 rfl rfl

/-- Claim C4: the `active` flag is checked only at login.  Login with a
correct password for an inactive user fails Forbidden, while the
authorization gate resolves a still-valid token of that same suspended user
to the user without consulting `active`. -/
theorem active_checked_only_at_login (db : DB) (email password : String)
    (u : User)
    (hfind : db.users.find? (fun x => x.email == email) = some u)
    (hpw : verify_password password u.password = true)
    (hact : u.active = false)
    (tok : Token) (now : Nat) (hexp : ¬ tok.exp < now)
    (u2 : User) (hu2 : db.users.find? (fun x => x.id == tok.sub) = some u2)
    (_hact2 : u2.active = false) :
    login db email password = .error .forbidden ∧
    get_current_user db tok now = .ok u2 := by
  constructor
  · rw [login, hfind]
    simp [hpw, hact]
  · rw [get_current_user, if_neg hexp, hu2]

/-- Witness for Claim C4: the suspended user Sue cannot log in with her
correct password, yet her unexpired token still authenticates. -/
theorem active_check_witness :
    login dbC4 suspendedU.email "suepw" = .error .forbidden ∧
    get_current_user dbC4 { sub := suspendedU.id, exp := 100 } 0 = .ok suspendedU :=
  active_checked_only_at_login dbC4 suspendedU.email "suepw" suspendedU
    (by decide) (by decide) (by decide) { sub := suspendedU.id, exp := 100 } 0
    (by decide) suspendedU (by decide) (by decide)

/-- Claim C5: the Hours Calculator parses the three `HH:MM` strings into
minutes since midnight and returns `(finish - start - break) / 60` rounded
to two decimal places; on any parse failure it returns `0.0`.  In
particular `("08:00","17:00","01:00")` yields 8.0,
`("09:00","09:30","00:00")` yields 0.5, and `"abc"` yields 0.0. -/
theorem calculate_hours_spec :
    (∀ s f b : String,
      (∃ sm fm bm : ℤ, parseClock s = some sm ∧ parseClock f = some fm ∧
        parseClock b = some bm ∧
        calculate_hours s f b = pyRound2 (((fm - sm - bm : ℤ) : ℚ) / 60)) ∨
      ((parseClock s = none ∨ parseClock f = none ∨ parseClock b = none) ∧
        calculate_hours s f b = 0)) ∧
    calculate_hours "08:00" "17:00" "01:00" = 8 ∧
    calculate_hours "09:00" "09:30" "00:00" = 1 / 2 ∧
    calculate_hours "abc" "17:00" "01:00" = 0 := by
  refine ⟨?_, by with_unfolding_all decide, by with_unfolding_all decide,
    by with_unfolding_all decide⟩
  intro s f b
  cases hs : parseClock s with
  | none => exact Or.inr ⟨Or.inl rfl, by simp [calculate_hours, hs]⟩
  | some sm =>
    cases hf : parseClock f with
    | none => exact Or.inr ⟨Or.inr (Or.inl rfl), by simp [calculate_hours, hs, hf]⟩
    | some fm =>
      cases hb : parseClock b with
      | none => exact Or.inr ⟨Or.inr (Or.inr rfl), by simp [calculate_hours, hs, hf, hb]⟩
      | some bm =>
        exact Or.inl ⟨sm, fm, bm, rfl, rfl, rfl, by simp [calculate_hours, hs, hf, hb]⟩

/-- Claim C10: the Hours Calculator performs no range or ordering checks:
a finish before the start yields negative hours, a break longer than the
worked interval yields negative hours, out-of-range fields such as
"25:99" parse successfully, and `create_timesheet` stores any such value
verbatim as `total_hours`. -/
theorem no_range_validation :
    calculate_hours "17:00" "08:00" "00:00" = -9 ∧
    calculate_hours "08:00" "09:00" "02:00" = -1 ∧
    calculate_hours "25:99" "26:00" "00:00" = -(13 / 20) ∧
    (create_timesheet dbC10 workerU tsNegCreate 40 "333333333333333333333333").1.total_hours
      = -9 ∧
    (create_timesheet dbC10 workerU tsNegCreate 40 "333333333333333333333333").1 ∈
      (create_timesheet dbC10 workerU tsNegCreate 40 "333333333333333333333333").2.timesheets := by
  refine ⟨?_, ?_, ?_, ?_, ?_⟩ <;> with_unfolding_all decide

/-- Claim C8: `update_job` applies only the payload fields that are present
and leaves every absent field of the stored job unchanged, and the update
is permitted exactly to an admin, a supervisor, or the job's creator —
any other caller fails with Forbidden.  An authorized caller succeeds
whenever at least one payload field is present; a payload with every field
absent reaches MongoDB with an empty `$set` and the request fails with an
internal server error instead. -/
theorem job_update_partial_and_authorized (db : DB) (u : User) (jid : String)
    (p : JobUpdate) (now : Nat) (j : Job)
    (hv : isValidObjectId jid = true)
    (hfind : db.jobs.find? (fun x => x.id == jid) = some j) :
    (∀ j' db', update_job db u jid p now = .ok (j', db') →
      (p.client_name = none → j'.client_name = j.client_name) ∧
      (p.address = none → j'.address = j.address) ∧
      (p.contact = none → j'.contact = j.contact) ∧
      (p.job_type = none → j'.job_type = j.job_type) ∧
      (p.notes = none → j'.notes = j.notes) ∧
      (p.status = none → j'.status = j.status) ∧
      (p.signature_url = none → j'.signature_url = j.signature_url)) ∧
    ((isElevated u = false ∧ j.created_by ≠ u.id) →
      update_job db u jid p now = .error .forbidden) ∧
    ((isElevated u = true ∨ j.created_by = u.id) → hasSetFields p = true →
      ∃ j' db', update_job db u jid p now = .ok (j', db')) ∧
    ((isElevated u = true ∨ j.created_by = u.id) → hasSetFields p = false →
      update_job db u jid p now = .error .internalError) := by
  have hcond : (isElevated u = true ∨ j.created_by = u.id) →
      ¬ (isElevated u = false ∧ j.created_by ≠ u.id) := by
    intro h
    rcases h with h | h
    · intro hc
      exact absurd h (by simp [hc.1])
    · intro hc
      exact hc.2 h
  refine ⟨?_, ?_, ?_, ?_⟩
  · intro j' db' hok
    simp only [update_job, hfind, hv] at hok
    split at hok
    · simp at hok
    · split at hok
      · simp at hok
      · split at hok
        · simp at hok
        · simp only [Except.ok.injEq, Prod.mk.injEq] at hok
          obtain ⟨h1, h2⟩ := hok
          subst h1
          refine ⟨?_, ?_, ?_, ?_, ?_, ?_, ?_⟩ <;>
            · intro h
              simp only [applyJobUpdate, h]
              split <;> rfl
  · intro h
    simp only [update_job, hfind, hv]
    simp [h]
  · intro h hset
    refine ⟨applyJobUpdate j p now,
      { db with jobs := replaceFirstJob db.jobs jid (applyJobUpdate j p now) }, ?_⟩
    simp only [update_job, hfind, hv]
    simp [hcond h, hset]
  · intro h hset
    simp only [update_job, hfind, hv]
    simp [hcond h, hset]

/-- Witness for Claim C8: the creator may update their own job with a
present field, an unrelated worker is rejected with Forbidden, and the
creator sending an all-absent payload hits the empty-`$set` error. -/
theorem job_update_witness :
    (∃ j' db', update_job dbC3 workerU jobPending.id notesUpd 60 = .ok (j', db')) ∧
    update_job dbC3 otherWorkerU jobPending.id notesUpd 60 = .error .forbidden ∧
    update_job dbC3 workerU jobPending.id {} 60 = .error .internalError := by
  refine ⟨?_, ?_, ?_⟩
  · exact (job_update_partial_and_authorized dbC3 workerU jobPending.id notesUpd 60 jobPending
      (by decide) (by decide)).2.2.1 (Or.inr (by decide)) (by decide)
  · exact (job_update_partial_and_authorized dbC3 otherWorkerU jobPending.id notesUpd 60 jobPending
      (by decide) (by decide)).2.1 ⟨by decide, by decide⟩
  · exact (job_update_partial_and_authorized dbC3 workerU jobPending.id {} 60 jobPending
      (by decide) (by decide)).2.2.2 (Or.inr (by decide)) (by decide)

/-- Claim C9: the unauthenticated `register` endpoint stores the
caller-supplied role verbatim (so a fresh email with role "admin" creates
an admin account); "worker" is only the pydantic default applied when the
field is absent. -/
theorem register_stores_role_verbatim (db : DB) (n e pw r : String) (now : Nat)
    (newId : String)
    (hfresh : db.users.find? (fun x => x.email == e) = none) :
    (∃ tok user db',
      register db { name := n, email := e, password := pw, role := r } now newId =
        .ok (tok, user, db') ∧ user.role = r ∧ user ∈ db'.users) ∧
    ({ name := n, email := e, password := pw } : UserRegister).role = "worker" := by
  constructor
  · refine ⟨create_access_token newId now,
      { id := newId, name := n, email := e, password := hash_password pw,
        role := r, active := true, created_at := now },
      { db with users := db.users ++
        [{ id := newId, name := n, email := e, password := hash_password pw,
           role := r, active := true, created_at := now }] }, ?_, rfl, ?_⟩
    · simp [register, hfresh]
    · simp
  · rfl

/-- Witness for Claim C9: registering with role "admin" on an empty store
creates an admin user. -/
theorem register_admin_witness :
    ∃ tok user db',
      register emptyDB eveRegister 0 "444444444444444444444444" = .ok (tok, user, db') ∧
      user.role = "admin" ∧ user ∈ db'.users :=
  (register_stores_role_verbatim emptyDB "Eve" "eve@fencewise.test" "pw" "admin" 0
    "444444444444444444444444" (by decide)).1

/-- Membership in a sorted-then-capped list is membership in the query
when the query fits under the cap. -/
theorem mem_capped_sort {α : Type} (r : α → α → Prop) [DecidableRel r]
    (l : List α) (h : l.length ≤ 1000) (a : α) :
    a ∈ (List.insertionSort r l).take 1000 ↔ a ∈ l := by
  rw [List.take_of_length_le (by rw [List.length_insertionSort]; exact h)]
  exact List.mem_insertionSort r

/-- A capped result never exceeds 1000 records. -/
theorem capped_sort_length {α : Type} (r : α → α → Prop) [DecidableRel r]
    (l : List α) : ((List.insertionSort r l).take 1000).length ≤ 1000 := by
  rw [List.length_take]
  exact min_le_left _ _

/-- The sorted-then-capped list is sorted by the sort order. -/
theorem capped_sort_pairwise {α : Type} (r : α → α → Prop) [DecidableRel r]
    [IsTotal α r] [IsTrans α r] (l : List α) :
    ((List.insertionSort r l).take 1000).Pairwise r :=
  List.Pairwise.sublist (List.take_sublist _ _) (List.sorted_insertionSort r l)

/-- Claim C6: `get_jobs` and `get_timesheets` return all records for an
elevated caller and exactly the caller's own records for a worker, sorted
descending by `created_at` / `date`, capped at 1000.  The membership
characterisations are stated for stores whose role-filtered query fits
under the cap; sortedness and the cap hold unconditionally. -/
theorem role_filtered_lists (db : DB) (u : User) :
    ((jobsQuery db u).length ≤ 1000 →
      ∀ j : Job, j ∈ get_jobs db u ↔
        (j ∈ db.jobs ∧ (isElevated u = true ∨ j.created_by = u.id))) ∧
    (get_jobs db u).Pairwise (fun a b => b.created_at ≤ a.created_at) ∧
    (get_jobs db u).length ≤ 1000 ∧
    ((tsQuery db u).length ≤ 1000 →
      ∀ t : Timesheet, t ∈ get_timesheets db u ↔
        (t ∈ db.timesheets ∧ (isElevated u = true ∨ t.user_id = u.id))) ∧
    (get_timesheets db u).Pairwise (fun a b => b.date ≤ a.date) ∧
    (get_timesheets db u).length ≤ 1000 := by
  refine ⟨?_, ?_, ?_, ?_, ?_, ?_⟩
  · intro hq j
    rw [get_jobs, mem_capped_sort jobDescRel _ hq]
    unfold jobsQuery
    by_cases he : isElevated u
    · simp [he]
    · simp [he, List.mem_filter]
  · exact capped_sort_pairwise jobDescRel (jobsQuery db u)
  · exact capped_sort_length jobDescRel (jobsQuery db u)
  · intro hq t
    rw [get_timesheets, mem_capped_sort tsDescRel _ hq]
    unfold tsQuery
    by_cases he : isElevated u
    · simp [he]
    · simp [he, List.mem_filter]
  · exact capped_sort_pairwise tsDescRel (tsQuery db u)
  · exact capped_sort_length tsDescRel (tsQuery db u)

/-- Witness for Claim C6: the admin's job list contains the worker's job,
and the worker's own timesheet list contains their timesheet. -/
theorem role_filtered_lists_witness :
    jobPending ∈ get_jobs dbLists adminU ∧
    tsPending ∈ get_timesheets dbLists workerU := by
  constructor
  · exact ((role_filtered_lists dbLists adminU).1 (by decide) jobPending).mpr
      ⟨by decide, Or.inl (by decide)⟩
  · exact ((role_filtered_lists dbLists workerU).2.2.2.1 (by decide) tsPending).mpr
      ⟨by decide, Or.inr (by decide)⟩

/-- Claim C7: `get_messages` on the broadcast channel "team" returns only
broadcast messages (never a direct message), and exactly those when the
query fits under the cap; on any other channel it returns exactly the
two-way conversation between the caller and that channel id; results are
ascending by timestamp and capped at 1000. -/
theorem message_channel_lists (db : DB) (u : User) (channel : String) :
    (∀ m : Message, m ∈ get_messages db u "team" → m.«to» = "team") ∧
    ((messagesQuery db u "team").length ≤ 1000 →
      ∀ m : Message, m ∈ get_messages db u "team" ↔
        (m ∈ db.messages ∧ m.«to» = "team")) ∧
    (channel ≠ "team" → (messagesQuery db u channel).length ≤ 1000 →
      ∀ m : Message, m ∈ get_messages db u channel ↔
        (m ∈ db.messages ∧
          ((m.from_id = u.id ∧ m.«to» = channel) ∨
           (m.from_id = channel ∧ m.«to» = u.id)))) ∧
    (get_messages db u channel).Pairwise (fun a b => a.timestamp ≤ b.timestamp) ∧
    (get_messages db u channel).length ≤ 1000 := by
  refine ⟨?_, ?_, ?_, ?_, ?_⟩
  · intro m hm
    rw [get_messages] at hm
    have hm2 := List.mem_of_mem_take hm
    rw [List.mem_insertionSort] at hm2
    simp [messagesQuery, List.mem_filter] at hm2
    exact hm2.2
  · intro hq m
    rw [get_messages, mem_capped_sort msgAscRel _ hq]
    simp [messagesQuery, List.mem_filter]
  · intro hch hq m
    rw [get_messages, mem_capped_sort msgAscRel _ hq]
    simp [messagesQuery, hch, List.mem_filter]
  · exact capped_sort_pairwise msgAscRel (messagesQuery db u channel)
  · exact capped_sort_length msgAscRel (messagesQuery db u channel)

/-- Witness for Claim C7: the team channel contains the broadcast message,
and the direct conversation with Omar contains the direct message. -/
theorem message_channel_lists_witness :
    msgTeam ∈ get_messages dbLists workerU "team" ∧
    msgDirect ∈ get_messages dbLists workerU otherWorkerU.id := by
  constructor
  · exact ((message_channel_lists dbLists workerU "team").2.1 (by decide) msgTeam).mpr
      ⟨by decide, by decide⟩
  · exact ((message_channel_lists dbLists workerU otherWorkerU.id).2.2.1 (by decide)
      (by decide) msgDirect).mpr ⟨by decide, Or.inl ⟨by decide, by decide⟩⟩

end FenceWise
